import Mathlib

/-!
Verification of the isahaq barcode-generator core against its
natural-language specification.  The JavaScript sources are embedded
shallowly: plain functions become Lean functions, the mutable builder
record becomes an explicitly threaded record value, and the external
capabilities (JsBarcode, node-canvas, pdfkit, the qrcode library, the
image loader) become free constructors or boolean success oracles in an
explicit environment record.  JavaScript strings in the embedded code
paths are ASCII, so `Char.toNat` coincides with `charCodeAt` and Lean's
`String.length` coincides with the JavaScript `length`.
-/

set_option linter.unusedVariables false

/-! ## JavaScript-flavoured helpers -/

/-- `parseInt` applied to a single decimal digit character. -/
def digitVal (c : Char) : Nat := c.toNat - 48

/-- Membership in the regex class `[0-9]`. -/
def isDigitCh (c : Char) : Bool := 48 ≤ c.toNat && c.toNat ≤ 57

/-- Membership in the regex class `[\x00-\x7F]` (ASCII). -/
def isAsciiCh (c : Char) : Bool := c.toNat ≤ 127

/-- Membership in the regex class `[A-Za-z0-9]`. -/
def isAlnumCh (c : Char) : Bool :=
  (65 ≤ c.toNat && c.toNat ≤ 90) || (97 ≤ c.toNat && c.toNat ≤ 122) || isDigitCh c

/-- Membership in the Code 39 regex class `[A-Z0-9\s\-\.\$\/\+\%]`. -/
def isCode39Ch (c : Char) : Bool :=
  (65 ≤ c.toNat && c.toNat ≤ 90) || isDigitCh c || c = ' ' || c = '-' || c = '.' ||
    c = '$' || c = '/' || c = '+' || c = '%'

/-- JavaScript `a || b` for a possibly-absent string `a`: both an absent
(`undefined`) value and the empty string are falsy. -/
def jsOrStr (a : Option String) (b : String) : String :=
  match a with
  | some s => if s = "" then b else s
  | none => b

/-- JavaScript `a || b` for two strings (the empty string is falsy). -/
def jsOrS (a b : String) : String := if a = "" then b else a

/-- JavaScript `a || b` for numbers (`0` is falsy). -/
def jsOrQ (a b : ℚ) : ℚ := if a = 0 then b else a

/-- JavaScript string interpolation of a value that may be `null`. -/
def jsStr (o : Option String) : String := o.getD "null"

/-- Left-pad a string with `'0'` up to length `k` (`padStart(k, "0")`). -/
def padZeros (s : String) (k : Nat) : String :=
  String.mk (List.replicate (k - s.length) '0') ++ s

/-- Rendering of a JavaScript number into a string.  Exact for integers
and finite decimal fractions, which are the only values produced by the
embedded code (all divisions are by 2 or 4 on decimal inputs). -/
def qStr (q : ℚ) : String :=
  if q.den = 1 then toString q.num
  else
    match (List.range 21).find? (fun k => q.den ∣ 10 ^ k) with
    | some k =>
      let a := q.num.natAbs * 10 ^ k / q.den
      let sign := if q.num < 0 then "-" else ""
      sign ++ toString (a / 10 ^ k) ++ "." ++ padZeros (toString (a % 10 ^ k)) k
    | none => toString q.num ++ "/" ++ toString q.den

/-- `charCodeAt` on an ASCII string (call sites guarantee the index is in
bounds, the default is never read). -/
def charCodeAt (data : String) (i : Nat) : Nat :=
  (data.toList.getD i (Char.ofNat 0)).toNat

/-- `n.toString(16)` for a byte value, as used by `rgbToHex`. -/
def natToHex (n : Nat) : String := String.mk (Nat.toDigits 16 n)

/-- The property names every plain object literal inherits from
`Object.prototype`.  A lookup `table[key]` on a literal walks the
prototype chain, so for these keys it yields the inherited member (a
function, or `Object.prototype` itself for `__proto__`) — a truthy
value that `table[key] || fallback` keeps instead of the fallback. -/
def objectPrototypeKeys : List String :=
  ["constructor", "hasOwnProperty", "isPrototypeOf", "propertyIsEnumerable",
   "toLocaleString", "toString", "valueOf", "__proto__",
   "__defineGetter__", "__defineSetter__", "__lookupGetter__", "__lookupSetter__"]

/-- The result of a JavaScript lookup `table[key] || fallback` on an
object literal: a proper entry (an own key, or the fallback), or — when
`key` names an inherited `Object.prototype` member — that inherited
truthy value, carried with the key that produced it. -/
inductive JsLookup (α : Type) where
  | val (a : α)
  | inherited (name : String)
deriving DecidableEq, Repr

/-- Reading `.x` off a looked-up position: `undefined` on an inherited
member. -/
def JsLookup.xCoord : JsLookup (ℚ × ℚ) → Option ℚ
  | JsLookup.val p => some p.1
  | JsLookup.inherited _ => none

/-- Reading `.y` off a looked-up position. -/
def JsLookup.yCoord : JsLookup (ℚ × ℚ) → Option ℚ
  | JsLookup.val p => some p.2
  | JsLookup.inherited _ => none

/-- JavaScript `a < b` where `b` may be `undefined` (`none`): any
comparison with `undefined` is false. -/
def jsLt (a : Nat) (b : Option Nat) : Bool :=
  match b with
  | some n => decide (a < n)
  | none => false

/-- JavaScript `a > b` where `b` may be `undefined`. -/
def jsGt (a : Nat) (b : Option Nat) : Bool :=
  match b with
  | some n => decide (n < a)
  | none => false

/-- Interpolation of a possibly-`undefined` number. -/
def numStr (o : Option Nat) : String :=
  match o with
  | some n => toString n
  | none => "undefined"

/-! ## BarcodeTypes (src/src/types/BarcodeTypes.js) -/

/-- `Object.values(BarcodeTypes.TYPES)`, in declaration order. -/
def BarcodeTypes.getAll : List String :=
  ["code128", "code128a", "code128b", "code128c", "code128auto",
   "code39", "code39extended", "code39checksum", "code39auto", "code93",
   "code25", "code25auto", "code32", "standard25", "standard25checksum",
   "interleaved25", "interleaved25checksum", "interleaved25auto",
   "msi", "msichecksum", "msiauto",
   "ean13", "ean8", "ean2", "ean5", "upca", "upce", "itf14",
   "postnet", "planet", "rms4cc", "kix", "imb",
   "codabar", "code11", "pharmacode", "pharmacodetwotracks",
   "qrcode", "datamatrix", "aztec", "pdf417", "microqr", "maxicode",
   "code16k", "code49"]

/-- `BarcodeTypes.isValid`: `Object.values(this.TYPES).includes(type)`. -/
def BarcodeTypes.isValid (type : String) : Bool :=
  BarcodeTypes.getAll.contains type

/-- The per-type configuration record `{minLength, maxLength, charset}`. -/
structure TypeConfig where
  minLength : Nat
  maxLength : Nat
  charset : String
deriving DecidableEq, Repr

/-- `BarcodeTypes.getConfig`: `configs[type] || {minLength: 1,
maxLength: 100, charset: "Unknown"}`.  The own keys of the `configs`
literal are checked first; an inherited `Object.prototype` property
name yields the inherited truthy member (which `||` keeps); everything
else gets the permissive fallback. -/
def BarcodeTypes.getConfig (type : String) : JsLookup TypeConfig :=
  if type = "code128" then .val ⟨1, 80, "ASCII"⟩
  else if type = "code128a" then .val ⟨1, 80, "ASCII A"⟩
  else if type = "code128b" then .val ⟨1, 80, "ASCII B"⟩
  else if type = "code128c" then .val ⟨2, 80, "Numeric"⟩
  else if type = "code39" then .val ⟨1, 43, "0-9, A-Z, space, -.$/+%"⟩
  else if type = "code39extended" then .val ⟨1, 43, "Extended ASCII"⟩
  else if type = "code93" then .val ⟨1, 43, "0-9, A-Z, -.$/+%"⟩
  else if type = "ean13" then .val ⟨12, 13, "Numeric"⟩
  else if type = "ean8" then .val ⟨7, 8, "Numeric"⟩
  else if type = "upca" then .val ⟨11, 12, "Numeric"⟩
  else if type = "upce" then .val ⟨6, 8, "Numeric"⟩
  else if type = "qrcode" then .val ⟨1, 2953, "Unicode"⟩
  else if type = "datamatrix" then .val ⟨1, 2335, "Unicode"⟩
  else if type = "pdf417" then .val ⟨1, 1850, "Unicode"⟩
  else if objectPrototypeKeys.contains type then .inherited type
  else .val ⟨1, 100, "Unknown"⟩

/-- Reading `.minLength` off a lookup result: `undefined` on an
inherited member. -/
def JsLookup.minLength : JsLookup TypeConfig → Option Nat
  | JsLookup.val c => some c.minLength
  | JsLookup.inherited _ => none

/-- Reading `.maxLength` off a lookup result. -/
def JsLookup.maxLength : JsLookup TypeConfig → Option Nat
  | JsLookup.val c => some c.maxLength
  | JsLookup.inherited _ => none

/-- Reading `.charset` off a lookup result. -/
def JsLookup.charset : JsLookup TypeConfig → Option String
  | JsLookup.val c => some c.charset
  | JsLookup.inherited _ => none

/-- Whether a lookup result is a real configuration record with
`minLength ≤ maxLength` (an inherited member is not). -/
def JsLookup.boundsOk : JsLookup TypeConfig → Bool
  | JsLookup.val c => decide (c.minLength ≤ c.maxLength)
  | JsLookup.inherited _ => false

/-! ## RenderFormats (src/src/renderers/RenderFormats.js) -/

/-- `Object.values(RenderFormats.FORMATS)`. -/
def RenderFormats.getAll : List String :=
  ["png", "svg", "html", "pdf", "jpg", "jpeg"]

/-- `RenderFormats.isValid`. -/
def RenderFormats.isValid (format : String) : Bool :=
  RenderFormats.getAll.contains format

/-! ## Validator (src/unnamed/part_004, class Validator) -/

/-- The validation result object.  Fields that a given return site does
not mention are `none`. -/
structure VResult where
  valid : Bool
  error : Option String := none
  data : Option String := none
  type : Option String := none
  length : Option Nat := none
  charset : Option String := none
deriving DecidableEq, Repr

/-- Regex `^[0-9]{12,13}$`. -/
def patternEAN13 (data : String) : Bool :=
  data.toList.all isDigitCh && (data.length = 12 || data.length = 13)

/-- Regex `^[0-9]{7,8}$`. -/
def patternEAN8 (data : String) : Bool :=
  data.toList.all isDigitCh && (data.length = 7 || data.length = 8)

/-- Regex `^[0-9]{11,12}$`. -/
def patternUPCA (data : String) : Bool :=
  data.toList.all isDigitCh && (data.length = 11 || data.length = 12)

/-- Regex `^[0-9]{6,8}$`. -/
def patternUPCE (data : String) : Bool :=
  data.toList.all isDigitCh && (6 ≤ data.length && data.length ≤ 8)

/-- Regex `^[\x00-\x7F]+$`. -/
def patternAscii (data : String) : Bool :=
  data.toList.all isAsciiCh && data.length > 0

/-- Regex `^[A-Z0-9\s\-\.\$\/\+\%]+$` (the `code39` pattern). -/
def patternCode39 (data : String) : Bool :=
  data.toList.all isCode39Ch && data.length > 0

/-- Regex `^[A-Za-z0-9]+$` (the `alphanumeric` pattern). -/
def patternAlnum (data : String) : Bool :=
  data.toList.all isAlnumCh && data.length > 0

/-- The weighted sum inside `calculateEANCheckDigit`:
`sum += i % 2 === 0 ? digit : digit * 3`. -/
def eanSum : List Char → Nat → Nat
  | [], _ => 0
  | c :: cs, i => (if i % 2 = 0 then digitVal c else 3 * digitVal c) + eanSum cs (i + 1)

/-- `Validator.calculateEANCheckDigit`: `(10 - (sum % 10)) % 10` over the
supplied digits (weight 1 on even 0-indexed positions, weight 3 on odd). -/
def Validator.calculateEANCheckDigit (data : String) : Nat :=
  (10 - eanSum data.toList 0 % 10) % 10

/-- Modelled from the spec wording of claim C2 only, for comparison with
the code: the check digit by the modulo-10 weighted sum in which,
0-indexed from the left, odd positions have weight 1 and even positions
have weight 3.  This is NOT the code's weighting. -/
def specEanSum : List Char → Nat → Nat
  | [], _ => 0
  | c :: cs, i => (if i % 2 = 0 then 3 * digitVal c else digitVal c) + specEanSum cs (i + 1)

/-- The check digit as described by the spec sentence of claim C2
(odd positions weight 1, even positions weight 3, 0-indexed). -/
def specCheckDigit (data : String) : Nat :=
  (10 - specEanSum data.toList 0 % 10) % 10

/-- `Validator.validateCode128`. -/
def Validator.validateCode128 (data type : String) : VResult :=
  if ¬ patternAscii data then
    { valid := false, error := some "Code 128 supports ASCII characters only" }
  else { valid := true }

/-- `Validator.validateCode39`. -/
def Validator.validateCode39 (data type : String) : VResult :=
  if type = "code39extended" then
    if ¬ patternAscii data then
      { valid := false, error := some "Extended Code 39 supports ASCII characters only" }
    else { valid := true }
  else
    if ¬ patternCode39 data then
      { valid := false, error := some "Code 39 supports characters: A-Z, 0-9, space, -.$/+%" }
    else { valid := true }

/-- `Validator.validateCode93`. -/
def Validator.validateCode93 (data : String) : VResult :=
  if ¬ patternAlnum data then
    { valid := false, error := some "Code 93 supports alphanumeric characters only" }
  else { valid := true }

/-- `Validator.validateEAN13`.  `data.substring(0, 12)` is the first 12
characters and `data[12]` the 13th; the inputs reaching the check-digit
branch are all-digit strings of length 13. -/
def Validator.validateEAN13 (data : String) : VResult :=
  if ¬ patternEAN13 data then
    { valid := false, error := some "EAN-13 must be 12 or 13 digits" }
  else if data.length = 13 then
    if digitVal (data.toList.getD 12 (Char.ofNat 0)) ≠
        Validator.calculateEANCheckDigit (String.mk (data.toList.take 12)) then
      { valid := false, error := some "Invalid EAN-13 check digit" }
    else { valid := true }
  else { valid := true }

/-- `Validator.validateEAN8`. -/
def Validator.validateEAN8 (data : String) : VResult :=
  if ¬ patternEAN8 data then
    { valid := false, error := some "EAN-8 must be 7 or 8 digits" }
  else if data.length = 8 then
    if digitVal (data.toList.getD 7 (Char.ofNat 0)) ≠
        Validator.calculateEANCheckDigit (String.mk (data.toList.take 7)) then
      { valid := false, error := some "Invalid EAN-8 check digit" }
    else { valid := true }
  else { valid := true }

/-- `Validator.validateUPCA`. -/
def Validator.validateUPCA (data : String) : VResult :=
  if ¬ patternUPCA data then
    { valid := false, error := some "UPC-A must be 11 or 12 digits" }
  else { valid := true }

/-- `Validator.validateUPCE`. -/
def Validator.validateUPCE (data : String) : VResult :=
  if ¬ patternUPCE data then
    { valid := false, error := some "UPC-E must be 6 to 8 digits" }
  else { valid := true }

/-- `Validator.validateQRCode`. -/
def Validator.validateQRCode (data : String) : VResult :=
  if data.length = 0 then
    { valid := false, error := some "QR Code data cannot be empty" }
  else { valid := true }

/-- `Validator.validateDataMatrix`. -/
def Validator.validateDataMatrix (data : String) : VResult :=
  if data.length = 0 then
    { valid := false, error := some "Data Matrix data cannot be empty" }
  else { valid := true }

/-- `Validator.validatePDF417`. -/
def Validator.validatePDF417 (data : String) : VResult :=
  if data.length = 0 then
    { valid := false, error := some "PDF417 data cannot be empty" }
  else { valid := true }

/-- `Validator.validateByType`: the `switch (type)` dispatch.  The
default arm returns `{valid: data.length > 0, error: ... | null}`. -/
def Validator.validateByType (data type : String) : VResult :=
  if type = "code128" ∨ type = "code128a" ∨ type = "code128b" ∨
      type = "code128c" ∨ type = "code128auto" then
    Validator.validateCode128 data type
  else if type = "code39" ∨ type = "code39extended" ∨
      type = "code39checksum" ∨ type = "code39auto" then
    Validator.validateCode39 data type
  else if type = "code93" then Validator.validateCode93 data
  else if type = "ean13" then Validator.validateEAN13 data
  else if type = "ean8" then Validator.validateEAN8 data
  else if type = "upca" then Validator.validateUPCA data
  else if type = "upce" then Validator.validateUPCE data
  else if type = "qrcode" then Validator.validateQRCode data
  else if type = "datamatrix" then Validator.validateDataMatrix data
  else if type = "pdf417" then Validator.validatePDF417 data
  else
    { valid := data.length > 0,
      error := if data.length = 0 then some "Data cannot be empty" else none }

/-- `Validator.validate`: empty/non-string gate, type registry gate,
length bounds from `getConfig`, per-type dispatch, success record.  A
non-string `data` argument is outside the model (every embedded call
site passes a string).  The `config` reaching the length checks is
always a real record — `isValid type` already held and no registered
identifier is an inherited property name — but the field reads are
modelled `undefined`-aware for totality and fidelity. -/
def Validator.validate (data type : String) : VResult :=
  if data = "" then
    { valid := false, error := some "Data must be a non-empty string" }
  else if ¬ BarcodeTypes.isValid type then
    { valid := false, error := some ("Invalid barcode type: " ++ type) }
  else
    let config := BarcodeTypes.getConfig type
    if jsLt data.length config.minLength then
      { valid := false,
        error := some ("Data too short. Minimum length: " ++ numStr config.minLength) }
    else if jsGt data.length config.maxLength then
      { valid := false,
        error := some ("Data too long. Maximum length: " ++ numStr config.maxLength) }
    else
      let r := Validator.validateByType data type
      if ¬ r.valid then r
      else
        { valid := true, data := some data, type := some type,
          length := some data.length, charset := config.charset }


/-! ## Render options shared by the four renderers

Every renderer merges the caller's options over its own
`defaultOptions` via object spread (`{ ...this.defaultOptions,
...options }`): a key the caller supplies wins.  `PartialOpts` models
the caller's record (a `none` field is an absent key); `RenderOpts` is
the merged record.  The HTML renderer's defaults add `className`/`id`
and the PDF renderer's add `pageWidth`/`pageHeight`; the extra fields
are carried for all renderers but only read by the backend that
declares them, so a single merged record is faithful. -/

structure RenderOpts where
  width : ℚ := 2
  height : ℚ := 100
  displayValue : Bool := true
  fontSize : ℚ := 20
  textAlign : String := "center"
  textPosition : String := "bottom"
  textMargin : ℚ := 2
  background : String := "#ffffff"
  lineColor : String := "#000000"
  margin : ℚ := 10
  marginTop : ℚ := 10
  marginBottom : ℚ := 10
  marginLeft : ℚ := 10
  marginRight : ℚ := 10
  className : String := "barcode"
  id : Option String := none
  pageWidth : ℚ := 612
  pageHeight : ℚ := 792
deriving DecidableEq, Repr

structure PartialOpts where
  width : Option ℚ := none
  height : Option ℚ := none
  displayValue : Option Bool := none
  fontSize : Option ℚ := none
  textAlign : Option String := none
  textPosition : Option String := none
  textMargin : Option ℚ := none
  background : Option String := none
  lineColor : Option String := none
  margin : Option ℚ := none
  marginTop : Option ℚ := none
  marginBottom : Option ℚ := none
  marginLeft : Option ℚ := none
  marginRight : Option ℚ := none
  className : Option String := none
  id : Option String := none
  pageWidth : Option ℚ := none
  pageHeight : Option ℚ := none
deriving DecidableEq, Repr

/-- `{ ...defaults, ...options }`. -/
def mergeOpts (defaults : RenderOpts) (o : PartialOpts) : RenderOpts :=
  { width := o.width.getD defaults.width,
    height := o.height.getD defaults.height,
    displayValue := o.displayValue.getD defaults.displayValue,
    fontSize := o.fontSize.getD defaults.fontSize,
    textAlign := o.textAlign.getD defaults.textAlign,
    textPosition := o.textPosition.getD defaults.textPosition,
    textMargin := o.textMargin.getD defaults.textMargin,
    background := o.background.getD defaults.background,
    lineColor := o.lineColor.getD defaults.lineColor,
    margin := o.margin.getD defaults.margin,
    marginTop := o.marginTop.getD defaults.marginTop,
    marginBottom := o.marginBottom.getD defaults.marginBottom,
    marginLeft := o.marginLeft.getD defaults.marginLeft,
    marginRight := o.marginRight.getD defaults.marginRight,
    className := o.className.getD defaults.className,
    id := match o.id with | some i => some i | none => defaults.id,
    pageWidth := o.pageWidth.getD defaults.pageWidth,
    pageHeight := o.pageHeight.getD defaults.pageHeight }

/-- The shared renderer default option set (identical literal record in
PNGRenderer, SVGRenderer, HTMLRenderer and PDFRenderer, up to the
extra keys noted above). -/
def rendererDefaults : RenderOpts := {}

/-- The ambient JavaScript environment consulted by renderer code:
`Date.now()` and the random suffix
`Math.random().toString(36).substr(2, 9)`.  Only the HTML renderer's
container-id generation reads it. -/
structure JsEnv where
  now : Nat
  rand : String
deriving DecidableEq, Repr

/-- `mapBarcodeType`: `typeMap[type] || "CODE128"` (the table is
identical in PNGRenderer and SVGRenderer).  Own keys first; an
inherited `Object.prototype` property name yields the inherited truthy
member rather than the `CODE128` fallback. -/
def mapBarcodeType (type : String) : JsLookup String :=
  if type = "code128" then .val "CODE128"
  else if type = "code128a" then .val "CODE128A"
  else if type = "code128b" then .val "CODE128B"
  else if type = "code128c" then .val "CODE128C"
  else if type = "code128auto" then .val "CODE128"
  else if type = "code39" then .val "CODE39"
  else if type = "code39extended" then .val "CODE39"
  else if type = "code39checksum" then .val "CODE39"
  else if type = "code39auto" then .val "CODE39"
  else if type = "code93" then .val "CODE93"
  else if type = "ean13" then .val "EAN13"
  else if type = "ean8" then .val "EAN8"
  else if type = "upca" then .val "UPC"
  else if type = "upce" then .val "UPC"
  else if type = "codabar" then .val "codabar"
  else if type = "code11" then .val "CODE11"
  else if type = "msi" then .val "MSI"
  else if type = "pharmazentral" then .val "pharmazentral"
  else if type = "interleaved25" then .val "ITF"
  else if type = "standard25" then .val "STD25"
  else if objectPrototypeKeys.contains type then .inherited type
  else .val "CODE128"

/-! ## PNG renderer (src/src/renderers/PNGRenderer.js, class PNGRenderer)

The canvas and JsBarcode are external capabilities: the renderer's
output is determined by the fixed 400x200 surface, the background fill,
and the full argument record passed to `JsBarcode(canvas, data, {...})`;
`canvas.toBuffer("image/png")` serialises exactly that state. -/

structure JsBarcodeArgs where
  data : String
  format : JsLookup String
  width : ℚ
  height : ℚ
  displayValue : Bool
  fontSize : ℚ
  textAlign : String
  textPosition : String
  textMargin : ℚ
  background : String
  lineColor : String
  margin : ℚ
  marginTop : ℚ
  marginBottom : ℚ
  marginLeft : ℚ
  marginRight : ℚ
deriving DecidableEq, Repr

structure PngOut where
  canvasWidth : ℚ
  canvasHeight : ℚ
  backgroundFill : String
  barcode : JsBarcodeArgs
deriving DecidableEq, Repr

/-- `PNGRenderer.render`.  The ambient environment is never consulted. -/
def PNGRenderer.render (env : JsEnv) (data type : String) (options : PartialOpts) : PngOut :=
  let r := mergeOpts rendererDefaults options
  { canvasWidth := 400, canvasHeight := 200,
    backgroundFill := r.background,
    barcode :=
      { data := data, format := mapBarcodeType type,
        width := r.width, height := r.height, displayValue := r.displayValue,
        fontSize := r.fontSize, textAlign := r.textAlign,
        textPosition := r.textPosition, textMargin := r.textMargin,
        background := r.background, lineColor := r.lineColor,
        margin := r.margin, marginTop := r.marginTop,
        marginBottom := r.marginBottom, marginLeft := r.marginLeft,
        marginRight := r.marginRight } }

/-! ## SVG renderer (same file, class SVGRenderer)

In the Node deployment `document` is not defined, so the primary path
(`document.createElement`) throws on its first statement and the
`catch` arm always returns `createManualSVG(data, type, options)`; the
fallback is self-contained string building and is embedded in full. -/

/-- The inner `for (j = 0; j < barCount; j++)` loop of
`createLinearBarcodeSVG`: emits `n` rects advancing `currentX` by
`barWidth * 2` each time; returns the markup and the final `currentX`. -/
def svgBarRun (n : Nat) (currentX barWidth barHeight : ℚ) (lineColor : String) :
    String × ℚ :=
  match n with
  | 0 => ("", currentX)
  | Nat.succ m =>
    let rect := "<rect x=\"" ++ qStr currentX ++ "\" y=\"10\" width=\"" ++ qStr barWidth ++
      "\" height=\"" ++ qStr barHeight ++ "\" fill=\"" ++ lineColor ++ "\"/>"
    let rest := svgBarRun m (currentX + barWidth * 2) barWidth barHeight lineColor
    (rect ++ rest.1, rest.2)

/-- The outer per-character loop of `createLinearBarcodeSVG`. -/
def svgBarLoop (chars : List Char) (currentX barWidth barHeight : ℚ) (lineColor : String) :
    String :=
  match chars with
  | [] => ""
  | c :: cs =>
    let run := svgBarRun (c.toNat % 5 + 1) currentX barWidth barHeight lineColor
    run.1 ++ svgBarLoop cs run.2 barWidth barHeight lineColor

/-- `SVGRenderer.createLinearBarcodeSVG`. -/
def SVGRenderer.createLinearBarcodeSVG (data : String) (width height : ℚ)
    (options : RenderOpts) : String :=
  let barWidth : ℚ := 2
  let barHeight : ℚ := height - (if options.displayValue then 30 else 0)
  svgBarLoop data.toList 20 barWidth barHeight options.lineColor

/-- `SVGRenderer.createQRCodeSVG` (the documented simplified square
placeholder). -/
def SVGRenderer.createQRCodeSVG (data : String) (width height : ℚ)
    (options : RenderOpts) : String :=
  let size := min width height - 40
  let x := (width - size) / 2
  let y := (height - size) / 2
  "<rect x=\"" ++ qStr x ++ "\" y=\"" ++ qStr y ++ "\" width=\"" ++ qStr size ++
    "\" height=\"" ++ qStr size ++ "\" fill=\"" ++ options.lineColor ++
    "\" stroke=\"" ++ options.lineColor ++ "\" stroke-width=\"1\"/>"

/-- `SVGRenderer.createManualSVG`. -/
def SVGRenderer.createManualSVG (data type : String) (options : PartialOpts) : String :=
  let r := mergeOpts rendererDefaults options
  let width : ℚ := 300
  let height : ℚ := r.height + (if r.displayValue then 30 else 0)
  let head := "<svg width=\"" ++ qStr width ++ "\" height=\"" ++ qStr height ++
    "\" xmlns=\"http://www.w3.org/2000/svg\">"
  let bg := "<rect width=\"" ++ qStr width ++ "\" height=\"" ++ qStr height ++
    "\" fill=\"" ++ r.background ++ "\"/>"
  let body :=
    if type = "qrcode" then SVGRenderer.createQRCodeSVG data width height r
    else SVGRenderer.createLinearBarcodeSVG data width height r
  let text :=
    if r.displayValue then
      "<text x=\"" ++ qStr (width / 2) ++ "\" y=\"" ++ qStr (height - 5) ++
        "\" text-anchor=\"middle\" font-family=\"Arial\" font-size=\"" ++
        qStr r.fontSize ++ "\" fill=\"" ++ r.lineColor ++ "\">" ++ data ++ "</text>"
    else ""
  head ++ bg ++ body ++ text ++ "</svg>"

/-- `SVGRenderer.render` (always the manual fallback, see above). -/
def SVGRenderer.render (env : JsEnv) (data type : String) (options : PartialOpts) : String :=
  SVGRenderer.createManualSVG data type options

/-! ## HTML renderer (same file, class HTMLRenderer) -/

/-- `HTMLRenderer.getContainerStyles` (template literal, whitespace
preserved). -/
def HTMLRenderer.getContainerStyles (options : RenderOpts) : String :=
  "\n      display: inline-block;\n      background: " ++ options.background ++
  ";\n      padding: " ++ qStr options.margin ++ "px;\n      margin: " ++
  qStr options.marginTop ++ "px " ++ qStr options.marginRight ++ "px " ++
  qStr options.marginBottom ++ "px " ++ qStr options.marginLeft ++
  "px;\n      border: 1px solid #ccc;\n      text-align: center;\n    "

/-- `HTMLRenderer.getTextStyles`. -/
def HTMLRenderer.getTextStyles (options : RenderOpts) : String :=
  "\n      font-family: Arial, sans-serif;\n      font-size: " ++
  qStr options.fontSize ++ "px;\n      color: " ++ options.lineColor ++
  ";\n      text-align: " ++ options.textAlign ++ ";\n      margin-top: " ++
  qStr options.textMargin ++ "px;\n    "

/-- `HTMLRenderer.getCSSStyles`: the scoped style block keyed to the
generated container id. -/
def HTMLRenderer.getCSSStyles (containerId : String) : String :=
  "\n      <style>\n        #" ++ containerId ++
  " \x7b\n          font-family: Arial, sans-serif;\n        \x7d\n        #" ++
  containerId ++
  " .barcode-text \x7b\n          font-weight: bold;\n        \x7d\n        #" ++
  containerId ++
  " .qr-code \x7b\n          margin: 0 auto;\n        \x7d\n        #" ++
  containerId ++
  " .linear-barcode \x7b\n          justify-content: center;\n        \x7d\n      </style>\n    "

/-- One grid cell of `createQRCodeHTML`: fill state
`(data.charCodeAt(i % data.length) + i) % 2 === 0`. -/
def htmlQrCell (data : String) (options : RenderOpts) (i : Nat) : String :=
  let shouldFill := (charCodeAt data (i % data.length) + i) % 2 = 0
  let color := if shouldFill then options.lineColor else options.background
  "<div style=\"background-color: " ++ color ++ "; width: 100%; height: 100%;\"></div>"

/-- `HTMLRenderer.createQRCodeHTML`: a 20x20 grid of cells
(`size 200 / cellSize 10`). -/
def HTMLRenderer.createQRCodeHTML (data : String) (options : RenderOpts) : String :=
  let size : Nat := 200
  let cellSize : Nat := 10
  let cells : Nat := size / cellSize
  let opening := "<div class=\"qr-code\" style=\"width: " ++ toString size ++
    "px; height: " ++ toString size ++
    "px; display: grid; grid-template-columns: repeat(" ++ toString cells ++
    ", 1fr); gap: 1px; background: " ++ options.background ++ "; padding: 10px;\">"
  let body := (List.range (cells * cells)).foldl
    (fun acc i => acc ++ htmlQrCell data options i) ""
  opening ++ body ++ "</div>"

/-- One bar of `createLinearBarcodeHTML`. -/
def htmlBarDiv (barWidth barHeight : ℚ) (lineColor : String) : String :=
  "<div style=\"width: " ++ qStr barWidth ++ "px; height: " ++ qStr barHeight ++
  "px; background-color: " ++ lineColor ++ "; margin-right: " ++ qStr barWidth ++
  "px;\"></div>"

/-- `n` repetitions of a string (the inner `for j` loop). -/
def repeatStr (n : Nat) (s : String) : String :=
  match n with
  | 0 => ""
  | Nat.succ m => s ++ repeatStr m s

/-- `HTMLRenderer.createLinearBarcodeHTML`: per character,
`charCode % 5 + 1` bars.  `options.width || 2` and
`options.height || 100` re-apply the numeric fallbacks on the already
merged record (`0` is falsy). -/
def HTMLRenderer.createLinearBarcodeHTML (data type : String) (options : RenderOpts) :
    String :=
  let barWidth := jsOrQ options.width 2
  let barHeight := jsOrQ options.height 100
  let opening := "<div class=\"linear-barcode\" style=\"display: flex; align-items: flex-start; background: " ++
    options.background ++ "; padding: 10px;\">"
  let body := data.toList.foldl
    (fun acc c => acc ++ repeatStr (c.toNat % 5 + 1) (htmlBarDiv barWidth barHeight options.lineColor)) ""
  opening ++ body ++ "</div>"

/-- `HTMLRenderer.createHTMLStructure`: container id
`options.id || barcode-Date.now()-randomSuffix`, body, optional text
block, closing tag, scoped style block. -/
def HTMLRenderer.createHTMLStructure (env : JsEnv) (data type : String)
    (options : RenderOpts) : String :=
  let containerId := jsOrStr options.id
    ("barcode-" ++ toString env.now ++ "-" ++ env.rand)
  let containerClass := jsOrS options.className "barcode"
  let opening := "<div id=\"" ++ containerId ++ "\" class=\"" ++ containerClass ++
    "\" style=\"" ++ HTMLRenderer.getContainerStyles options ++ "\">"
  let body :=
    if type = "qrcode" then HTMLRenderer.createQRCodeHTML data options
    else HTMLRenderer.createLinearBarcodeHTML data type options
  let text :=
    if options.displayValue then
      "<div class=\"barcode-text\" style=\"" ++ HTMLRenderer.getTextStyles options ++
        "\">" ++ data ++ "</div>"
    else ""
  opening ++ body ++ text ++ "</div>" ++ HTMLRenderer.getCSSStyles containerId

/-- `HTMLRenderer.render`. -/
def HTMLRenderer.render (env : JsEnv) (data type : String) (options : PartialOpts) :
    String :=
  HTMLRenderer.createHTMLStructure env data type (mergeOpts rendererDefaults options)

/-! ## PDF renderer (src/unnamed/part_003, class PDFRenderer)

pdfkit is the external document capability: the resolved buffer is
determined by the page setup and the ordered sequence of drawing
operations issued before `doc.end()`, which the promise collects. -/

inductive PdfOp where
  | rect (x y w h : ℚ)
  | fillColor (c : String)
  | fill
  | fontSize (s : ℚ)
  | text (t : String) (x y : ℚ) (align : String)
deriving DecidableEq, Repr

structure PdfOut where
  pageWidth : ℚ
  pageHeight : ℚ
  marginTop : ℚ
  marginBottom : ℚ
  marginLeft : ℚ
  marginRight : ℚ
  ops : List PdfOp
deriving DecidableEq, Repr

/-- `PDFRenderer.addQRCodeToPDF`: the fixed 20x20 cell grid with fill
rule `(data.charCodeAt((row*cells+col) % data.length) + row + col) % 2 === 0`. -/
def PDFRenderer.addQRCodeToPDF (data : String) (x y : ℚ) (options : RenderOpts) :
    List PdfOp :=
  let size : Nat := 200
  let cellSize : Nat := 10
  let cells : Nat := size / cellSize
  (List.range cells).flatMap fun row =>
    (List.range cells).flatMap fun col =>
      if (charCodeAt data ((row * cells + col) % data.length) + row + col) % 2 = 0 then
        [PdfOp.rect (x + col * (cellSize : ℚ)) (y + row * (cellSize : ℚ))
          (cellSize : ℚ) (cellSize : ℚ),
         PdfOp.fillColor options.lineColor, PdfOp.fill]
      else []

/-- The inner bar loop of `addLinearBarcodeToPDF`. -/
def pdfBarRun (n : Nat) (currentX y barWidth height : ℚ) (lineColor : String) :
    List PdfOp × ℚ :=
  match n with
  | 0 => ([], currentX)
  | Nat.succ m =>
    let rest := pdfBarRun m (currentX + barWidth * 2) y barWidth height lineColor
    ([PdfOp.rect currentX y barWidth height, PdfOp.fillColor lineColor, PdfOp.fill] ++
      rest.1, rest.2)

/-- The per-character loop of `addLinearBarcodeToPDF`. -/
def pdfBarLoop (chars : List Char) (currentX y barWidth height : ℚ)
    (lineColor : String) : List PdfOp :=
  match chars with
  | [] => []
  | c :: cs =>
    let run := pdfBarRun (c.toNat % 5 + 1) currentX y barWidth height lineColor
    run.1 ++ pdfBarLoop cs run.2 y barWidth height lineColor

/-- `PDFRenderer.addLinearBarcodeToPDF` (`options.width || 2`). -/
def PDFRenderer.addLinearBarcodeToPDF (data type : String) (x y : ℚ)
    (options : RenderOpts) : List PdfOp :=
  pdfBarLoop data.toList x y (jsOrQ options.width 2) options.height options.lineColor

/-- `PDFRenderer.addBarcodeToPDF`: background rectangle, body, optional
text. -/
def PDFRenderer.addBarcodeToPDF (data type : String) (options : RenderOpts) :
    List PdfOp :=
  let x := options.marginLeft
  let y := options.marginTop
  [PdfOp.rect 0 0 options.pageWidth options.pageHeight,
   PdfOp.fillColor options.background, PdfOp.fill] ++
  (if type = "qrcode" then PDFRenderer.addQRCodeToPDF data x y options
   else PDFRenderer.addLinearBarcodeToPDF data type x y options) ++
  (if options.displayValue then
    [PdfOp.fontSize options.fontSize, PdfOp.fillColor options.lineColor,
     PdfOp.text data x (y + options.height + options.textMargin) options.textAlign]
   else [])

/-- `PDFRenderer.render`: page of `pageWidth x pageHeight`, the
accumulated operation stream as the resolved buffer. -/
def PDFRenderer.render (env : JsEnv) (data type : String) (options : PartialOpts) :
    PdfOut :=
  let r := mergeOpts rendererDefaults options
  { pageWidth := r.pageWidth, pageHeight := r.pageHeight,
    marginTop := r.marginTop, marginBottom := r.marginBottom,
    marginLeft := r.marginLeft, marginRight := r.marginRight,
    ops := PDFRenderer.addBarcodeToPDF data type r }

/-! ## Barcode service (src/src/services/BarcodeService.js) -/

inductive Artifact where
  | png (out : PngOut)
  | svg (out : String)
  | html (out : String)
  | pdf (out : PdfOut)
deriving DecidableEq, Repr

/-- The renderer instance table built in the `BarcodeService`
constructor (`this.renderers = { png: ..., svg: ..., html: ..., pdf: ... }`). -/
def defaultRenderers (format : String) :
    Option (JsEnv → String → String → PartialOpts → Artifact) :=
  if format = "png" then some (fun env data type o => .png (PNGRenderer.render env data type o))
  else if format = "svg" then some (fun env data type o => .svg (SVGRenderer.render env data type o))
  else if format = "html" then some (fun env data type o => .html (HTMLRenderer.render env data type o))
  else if format = "pdf" then some (fun env data type o => .pdf (PDFRenderer.render env data type o))
  else none

/-- `BarcodeService.generate`, parametrised by the renderer instance
table `this.renderers` so that independence of failures from the
renderers is expressible.  Thrown errors are modelled as `Except.error`
of the thrown message.  A non-string `data` is outside the model. -/
def BarcodeService.generateWith
    (renderers : String → Option (JsEnv → String → String → PartialOpts → Artifact))
    (env : JsEnv) (data type format : String) (options : PartialOpts) :
    Except String Artifact :=
  if data = "" then .error "Data must be a non-empty string"
  else if ¬ BarcodeTypes.isValid type then
    .error ("Invalid barcode type: " ++ type ++ ". Supported types: " ++
      String.intercalate ", " BarcodeTypes.getAll)
  else if ¬ RenderFormats.isValid format then
    .error ("Invalid format: " ++ format ++ ". Supported formats: " ++
      String.intercalate ", " RenderFormats.getAll)
  else
    let validation := Validator.validate data type
    if ¬ validation.valid then
      .error ("Invalid data for " ++ type ++ ": " ++ jsStr validation.error)
    else
      match renderers format with
      | none => .error ("No renderer available for format: " ++ format)
      | some r => .ok (r env data type options)

/-- `BarcodeService.generate` with the service's own renderer table. -/
def BarcodeService.generate (env : JsEnv) (data type format : String)
    (options : PartialOpts) : Except String Artifact :=
  BarcodeService.generateWith defaultRenderers env data type format options

/-- A batch input item `{data, type, format, options}`; `none` models an
absent key. -/
structure BatchItem where
  data : String
  type : Option String := none
  format : Option String := none
  options : PartialOpts := {}
deriving DecidableEq, Repr

/-- A batch output record `{index, success, result|error, data, type, format}`. -/
structure BatchResult where
  index : Nat
  success : Bool
  result : Option Artifact := none
  error : Option String := none
  data : String
  type : String
  format : String
deriving DecidableEq, Repr

instance : Inhabited BatchResult := ⟨⟨0, false, none, none, "", "", ""⟩⟩

/-- The body of `items.map((item, index) => { try ... catch ... })`.
The `try` arm destructures with defaults (`type = "code128"`,
`format = "png"`, applied when the key is absent); the `catch` arm uses
`item.type || "code128"` (absent or falsy). -/
def BarcodeService.processItem (env : JsEnv) (index : Nat) (item : BatchItem) :
    BatchResult :=
  match BarcodeService.generate env item.data (item.type.getD "code128")
      (item.format.getD "png") item.options with
  | .ok r =>
    { index := index, success := true, result := some r, error := none,
      data := item.data, type := item.type.getD "code128",
      format := item.format.getD "png" }
  | .error e =>
    { index := index, success := false, result := none, error := some e,
      data := item.data, type := jsOrStr item.type "code128",
      format := jsOrStr item.format "png" }

/-- `BarcodeService.batch`: an index-tagged independent map over the
items (the `Array.isArray` guard is outside the model, the argument is
a list by type). -/
def BarcodeService.batch (env : JsEnv) (items : List BatchItem) : List BatchResult :=
  items.mapIdx fun index item => BarcodeService.processItem env index item

/-! ## QR code builder (src/src/builders/QrCodeBuilder.js)

The builder owns a single mutable `this.options` record; every fluent
setter assigns into that record and returns the builder.  `build()`
executes `new QrCodeResult(this.options)`: the result object receives
the SAME record by reference, with no clone, so the result's methods
read the record as it stands when they are invoked.  We model the
shared record as an explicit store value of type `QrOptions` threaded
through time: a setter produces the updated store, and
`QrCodeResult.generate` is a function of the store at call time. -/

structure QrOptions where
  data : String := ""
  size : ℚ := 300
  margin : ℚ := 10
  errorCorrectionLevel : String := "M"
  foregroundColor : List Nat := [0, 0, 0]
  backgroundColor : List Nat := [255, 255, 255]
  logoPath : Option String := none
  logoSize : ℚ := 60
  label : Option String := none
  labelFont : Option String := none
  labelFontSize : ℚ := 16
  watermark : Option String := none
  watermarkPosition : String := "center"
  format : String := "png"
deriving DecidableEq, Repr

/-- Fluent setter `data(data)`: `this.options.data = data`. -/
def QrCodeBuilder.data (v : String) (o : QrOptions) : QrOptions := { o with data := v }

/-- Fluent setter `size(size)`. -/
def QrCodeBuilder.size (v : ℚ) (o : QrOptions) : QrOptions := { o with size := v }

/-- Fluent setter `margin(margin)`. -/
def QrCodeBuilder.margin (v : ℚ) (o : QrOptions) : QrOptions := { o with margin := v }

/-- Fluent setter `logoPath(logoPath)`. -/
def QrCodeBuilder.logoPath (v : String) (o : QrOptions) : QrOptions :=
  { o with logoPath := some v }

/-- Fluent setter `watermark(watermark, position = "center")`. -/
def QrCodeBuilder.watermark (v : String) (position : String) (o : QrOptions) :
    QrOptions :=
  { o with watermark := some v, watermarkPosition := position }

/-- `build()`: `new QrCodeResult(this.options)` — the options record is
handed over by reference, NOT cloned, so this is the identity on the
shared store. -/
def QrCodeBuilder.build (o : QrOptions) : QrOptions := o

/-- JavaScript truthiness of an optional string field (`undefined`,
`null` and `""` are falsy). -/
def jsTruthy (o : Option String) : Bool :=
  match o with
  | some s => ¬ s = ""
  | none => false

/-- `rgbToHex`: `"#" + rgb.map(c => c.toString(16).padStart(2, "0")).join("")`. -/
def rgbToHex (rgb : List Nat) : String :=
  "#" ++ String.join (rgb.map fun c => padZeros (natToHex c) 2)

/-- The images a canvas can draw in this pipeline: the rendered QR
symbol returned by `QRCode.toDataURL` + `loadImage`, or a file image
from `loadImage(path)`. -/
inductive CanvasImage where
  | qrImage (data : String) (width : ℚ) (colorDark colorLight ecLevel : String)
  | fileImage (path : String)
deriving DecidableEq, Repr

/-- Canvas drawing operations issued by `QrCodeResult`.  `fillText`
carries the `ctx.font`, `ctx.fillStyle` and `ctx.textAlign` values set
immediately before the call.  Coordinates read off a JavaScript lookup
may be `undefined` (an inherited watermark position has no `.x`/`.y`),
so `drawImageScaled` and `fillText` carry `Option ℚ`; definite
coordinates are wrapped in `some`. -/
inductive CanvasOp where
  | fillRect (x y w h : ℚ) (color : String)
  | drawImage (img : CanvasImage) (x y : ℚ)
  | drawImageScaled (img : CanvasImage) (x y : Option ℚ) (w h : ℚ)
  | fillText (s : String) (x y : Option ℚ) (font : String) (color : String) (align : String)
deriving DecidableEq, Repr

/-- `canvas.toBuffer("image/" + format)` serialises the surface: the
buffer is determined by the canvas dimensions, the ordered operations
and the format tag. -/
structure QrBuffer where
  format : String
  width : ℚ
  height : ℚ
  ops : List CanvasOp
deriving DecidableEq, Repr

/-- The external capabilities `QrCodeResult` awaits: `qrFail data` is
`some message` when `QRCode.toDataURL(data, ...)` (or loading the
resulting data URL) rejects with that message, `none` on success;
`loadOk path` tells whether `loadImage(path)` resolves. -/
structure QrEnv where
  qrFail : String → Option String
  loadOk : String → Bool

/-- `QrCodeResult.getWatermarkPosition(size)`:
`positions[this.options.watermarkPosition] || positions.center` over
the nine-anchor object literal.  Own keys first; an inherited
`Object.prototype` property name yields the inherited truthy member
(so NOT the center fallback); everything else falls back to center. -/
def QrCodeResult.getWatermarkPosition (o : QrOptions) (size : ℚ) : JsLookup (ℚ × ℚ) :=
  if o.watermarkPosition = "top-left" then .val (10, 10)
  else if o.watermarkPosition = "top-right" then .val (o.size - size - 10, 10)
  else if o.watermarkPosition = "bottom-left" then .val (10, o.size - size - 10)
  else if o.watermarkPosition = "bottom-right" then
    .val (o.size - size - 10, o.size - size - 10)
  else if o.watermarkPosition = "center" then
    .val ((o.size - size) / 2, (o.size - size) / 2)
  else if o.watermarkPosition = "top-center" then .val ((o.size - size) / 2, 10)
  else if o.watermarkPosition = "bottom-center" then
    .val ((o.size - size) / 2, o.size - size - 10)
  else if o.watermarkPosition = "left-center" then .val (10, (o.size - size) / 2)
  else if o.watermarkPosition = "right-center" then
    .val (o.size - size - 10, (o.size - size) / 2)
  else if objectPrototypeKeys.contains o.watermarkPosition then
    .inherited o.watermarkPosition
  else .val ((o.size - size) / 2, (o.size - size) / 2)

/-- `QrCodeResult.addLogo(ctx)`: when `loadImage(this.options.logoPath)`
resolves, paint the background-colored backing square inset 5 beyond
the logo and draw the logo; when it rejects, the `catch` arm only
`console.warn`s, so no operation is issued. -/
def QrCodeResult.addLogo (env : QrEnv) (o : QrOptions) : List CanvasOp :=
  if env.loadOk (o.logoPath.getD "") then
    let logoSize := o.size * o.logoSize / 100
    let logoX := (o.size - logoSize) / 2
    let logoY := (o.size - logoSize) / 2
    [CanvasOp.fillRect (logoX - 5) (logoY - 5) (logoSize + 10) (logoSize + 10)
      (rgbToHex o.backgroundColor),
     CanvasOp.drawImageScaled (CanvasImage.fileImage (o.logoPath.getD ""))
      (some logoX) (some logoY) logoSize logoSize]
  else []

/-- `QrCodeResult.addWatermark(ctx)`: the image-path heuristic
(`includes(".") && includes("/")`), image watermark at `size / 4`, text
watermark at the resolved anchor; failures are warned and swallowed. -/
def QrCodeResult.addWatermark (env : QrEnv) (o : QrOptions) : List CanvasOp :=
  let w := o.watermark.getD ""
  if w.contains '.' && w.contains '/' then
    if env.loadOk w then
      let watermarkSize := o.size / 4
      let position := QrCodeResult.getWatermarkPosition o watermarkSize
      [CanvasOp.drawImageScaled (CanvasImage.fileImage w) position.xCoord
        position.yCoord watermarkSize watermarkSize]
    else []
  else
    let position := QrCodeResult.getWatermarkPosition o 0
    [CanvasOp.fillText w position.xCoord position.yCoord
      (qStr o.labelFontSize ++ "px Arial") (rgbToHex o.foregroundColor) "center"]

/-- `QrCodeResult.addLabel(ctx)`: centered at `y = size - 10`. -/
def QrCodeResult.addLabel (o : QrOptions) : List CanvasOp :=
  [CanvasOp.fillText (o.label.getD "") (some (o.size / 2)) (some (o.size - 10))
    (qStr o.labelFontSize ++ "px Arial") (rgbToHex o.foregroundColor) "center"]

/-- `QrCodeResult.generate()`: background fill, QR symbol at
`(size - 2*margin)` width drawn inset by `margin`, then the three
optional layers gated by truthiness of their fields; the outer `catch`
rewraps a base-generation failure. -/
def QrCodeResult.generate (env : QrEnv) (o : QrOptions) : Except String QrBuffer :=
  match env.qrFail o.data with
  | some msg => .error ("QR code generation failed: " ++ msg)
  | none =>
    let ops :=
      [CanvasOp.fillRect 0 0 o.size o.size (rgbToHex o.backgroundColor),
       CanvasOp.drawImage
         (CanvasImage.qrImage o.data (o.size - o.margin * 2)
           (rgbToHex o.foregroundColor) (rgbToHex o.backgroundColor)
           o.errorCorrectionLevel)
         o.margin o.margin] ++
      (if jsTruthy o.logoPath then QrCodeResult.addLogo env o else []) ++
      (if jsTruthy o.watermark then QrCodeResult.addWatermark env o else []) ++
      (if jsTruthy o.label then QrCodeResult.addLabel o else [])
    .ok { format := o.format, width := o.size, height := o.size, ops := ops }

/-- `QrCodeResult.getString()`: `return await this.generate()` — the
very same buffer `generate()` resolves with. -/
def QrCodeResult.getString (env : QrEnv) (o : QrOptions) : Except String QrBuffer :=
  QrCodeResult.generate env o

/-- `BarcodeGenerator.getWatermarkPositions()` (src/unnamed/part_005). -/
def BarcodeGenerator.getWatermarkPositions : List String :=
  ["top-left", "top-right", "bottom-left", "bottom-right", "center",
   "top-center", "bottom-center", "left-center", "right-center"]

/-! ## Claims -/

/-- C1, counterexample: the spec's fixed-point regression example is
false on the code — `checkDigit("123456789012")` is not 2, and
`validate("1234567890123", "ean13")` is not valid. -/
theorem c1_ean_regression_counterexample :
    Validator.calculateEANCheckDigit "123456789012" ≠ 2 ∧
    (Validator.validate "1234567890123" "ean13").valid ≠ true := by
  decide

/-- C1 (amended): `checkDigit("123456789012") == 8`, hence
`validate("1234567890128", "ean13")` is valid while both
`validate("1234567890123", "ean13")` and
`validate("1234567890120", "ean13")` are invalid with the
checksum-related error `"Invalid EAN-13 check digit"`. -/
theorem c1_ean_regression :
    Validator.calculateEANCheckDigit "123456789012" = 8 ∧
    (Validator.validate "1234567890128" "ean13").valid = true ∧
    (Validator.validate "1234567890123" "ean13").valid = false ∧
    (Validator.validate "1234567890123" "ean13").error =
      some "Invalid EAN-13 check digit" ∧
    (Validator.validate "1234567890120" "ean13").valid = false ∧
    (Validator.validate "1234567890120" "ean13").error =
      some "Invalid EAN-13 check digit" := by
  decide

/-- C7, counterexample: `"constructor"` is an unregistered identifier,
yet `configFor("constructor")` does not return the permissive fallback
— the prototype-chain lookup `configs["constructor"]` finds the
inherited truthy `Object.prototype.constructor`, which `||` keeps. -/
theorem c7_registry_counterexample :
    BarcodeTypes.isValid "constructor" = false ∧
    BarcodeTypes.getConfig "constructor" ≠ JsLookup.val ⟨1, 100, "Unknown"⟩ ∧
    BarcodeTypes.getConfig "constructor" = JsLookup.inherited "constructor" := by
  decide

/-- C7 (amended): every registered symbology identifier is accepted by
`isValid` and its configuration is a real record with
`minLength ≤ maxLength`; every unregistered identifier is rejected by
`isValid`, and `getConfig` returns exactly the permissive fallback
`{1, 100, "Unknown"}` unless the identifier names an inherited
`Object.prototype` property, in which case the inherited member is
returned instead of the fallback. -/
theorem c7_registry_config (t : String) :
    (t ∈ BarcodeTypes.getAll →
      BarcodeTypes.isValid t = true ∧ (BarcodeTypes.getConfig t).boundsOk = true) ∧
    (t ∉ BarcodeTypes.getAll →
      BarcodeTypes.isValid t = false ∧
      (t ∉ objectPrototypeKeys →
        BarcodeTypes.getConfig t = JsLookup.val ⟨1, 100, "Unknown"⟩) ∧
      (t ∈ objectPrototypeKeys →
        BarcodeTypes.getConfig t = JsLookup.inherited t)) := by
  constructor
  · intro h
    exact (by decide :
      ∀ x ∈ BarcodeTypes.getAll, BarcodeTypes.isValid x = true ∧
        (BarcodeTypes.getConfig x).boundsOk = true) t h
  · intro h
    have key : ∀ k : String, k ∈ BarcodeTypes.getAll → ¬ t = k := by
      intro k hk he
      exact h (he ▸ hk)
    refine ⟨?_, ?_, ?_⟩
    · cases he : BarcodeTypes.getAll.contains t
      · unfold BarcodeTypes.isValid
        exact he
      · exact absurd (List.elem_iff.mp he) h
    · intro hpro
      unfold BarcodeTypes.getConfig
      rw [if_neg (key "code128" (by decide)), if_neg (key "code128a" (by decide)),
        if_neg (key "code128b" (by decide)), if_neg (key "code128c" (by decide)),
        if_neg (key "code39" (by decide)), if_neg (key "code39extended" (by decide)),
        if_neg (key "code93" (by decide)), if_neg (key "ean13" (by decide)),
        if_neg (key "ean8" (by decide)), if_neg (key "upca" (by decide)),
        if_neg (key "upce" (by decide)), if_neg (key "qrcode" (by decide)),
        if_neg (key "datamatrix" (by decide)), if_neg (key "pdf417" (by decide)),
        if_neg (show ¬ objectPrototypeKeys.contains t = true from
          fun hc => hpro (List.elem_iff.mp hc))]
    · intro hpro
      unfold BarcodeTypes.getConfig
      rw [if_neg (key "code128" (by decide)), if_neg (key "code128a" (by decide)),
        if_neg (key "code128b" (by decide)), if_neg (key "code128c" (by decide)),
        if_neg (key "code39" (by decide)), if_neg (key "code39extended" (by decide)),
        if_neg (key "code93" (by decide)), if_neg (key "ean13" (by decide)),
        if_neg (key "ean8" (by decide)), if_neg (key "upca" (by decide)),
        if_neg (key "upce" (by decide)), if_neg (key "qrcode" (by decide)),
        if_neg (key "datamatrix" (by decide)), if_neg (key "pdf417" (by decide)),
        if_pos (List.elem_iff.mpr hpro)]

/-- C7, witness at the registered identifier `"code128"`, the plain
unregistered identifier `"zzz"` and the inherited property name
`"toString"`. -/
theorem c7_registry_config_witness :
    (BarcodeTypes.isValid "code128" = true ∧
      (BarcodeTypes.getConfig "code128").boundsOk = true) ∧
    (BarcodeTypes.isValid "zzz" = false ∧
      BarcodeTypes.getConfig "zzz" = JsLookup.val ⟨1, 100, "Unknown"⟩) ∧
    (BarcodeTypes.isValid "toString" = false ∧
      BarcodeTypes.getConfig "toString" = JsLookup.inherited "toString") :=
  ⟨(c7_registry_config "code128").1 (by decide),
   ⟨((c7_registry_config "zzz").2 (by decide)).1,
    ((c7_registry_config "zzz").2 (by decide)).2.1 (by decide)⟩,
   ⟨((c7_registry_config "toString").2 (by decide)).1,
    ((c7_registry_config "toString").2 (by decide)).2.2 (by decide)⟩⟩

/-- C9, counterexample: the unrecognized position `"constructor"` does
NOT resolve to the center formula — `positions["constructor"]` finds
the inherited truthy `Object.prototype.constructor`, which
`|| positions.center` keeps. -/
theorem c9_watermark_counterexample :
    "constructor" ∉ BarcodeGenerator.getWatermarkPositions ∧
    QrCodeResult.getWatermarkPosition { watermarkPosition := "constructor" } 5 ≠
      JsLookup.val ((((300 : ℚ) - 5) / 2, ((300 : ℚ) - 5) / 2)) ∧
    QrCodeResult.getWatermarkPosition { watermarkPosition := "constructor" } 5 =
      JsLookup.inherited "constructor" := by
  decide

/-- C9 (amended): `getWatermarkPositions()` has exactly 9 entries
including `"center"`, `"top-left"` and `"bottom-right"`; each of the
nine named positions resolves to its explicit `(x, y)` formula in
terms of the configured size and the watermark's own size; a position
that is neither one of the nine nor an inherited `Object.prototype`
property name resolves to the center formula, while an inherited
property name yields the inherited member instead of the fallback. -/
theorem c9_watermark_positions (o : QrOptions) (s : ℚ)
    (hun : o.watermarkPosition ∉ BarcodeGenerator.getWatermarkPositions) :
    BarcodeGenerator.getWatermarkPositions.length = 9 ∧
    "center" ∈ BarcodeGenerator.getWatermarkPositions ∧
    "top-left" ∈ BarcodeGenerator.getWatermarkPositions ∧
    "bottom-right" ∈ BarcodeGenerator.getWatermarkPositions ∧
    QrCodeResult.getWatermarkPosition { o with watermarkPosition := "top-left" } s =
      JsLookup.val (10, 10) ∧
    QrCodeResult.getWatermarkPosition { o with watermarkPosition := "top-right" } s =
      JsLookup.val (o.size - s - 10, 10) ∧
    QrCodeResult.getWatermarkPosition { o with watermarkPosition := "bottom-left" } s =
      JsLookup.val (10, o.size - s - 10) ∧
    QrCodeResult.getWatermarkPosition { o with watermarkPosition := "bottom-right" } s =
      JsLookup.val (o.size - s - 10, o.size - s - 10) ∧
    QrCodeResult.getWatermarkPosition { o with watermarkPosition := "center" } s =
      JsLookup.val ((o.size - s) / 2, (o.size - s) / 2) ∧
    QrCodeResult.getWatermarkPosition { o with watermarkPosition := "top-center" } s =
      JsLookup.val ((o.size - s) / 2, 10) ∧
    QrCodeResult.getWatermarkPosition { o with watermarkPosition := "bottom-center" } s =
      JsLookup.val ((o.size - s) / 2, o.size - s - 10) ∧
    QrCodeResult.getWatermarkPosition { o with watermarkPosition := "left-center" } s =
      JsLookup.val (10, (o.size - s) / 2) ∧
    QrCodeResult.getWatermarkPosition { o with watermarkPosition := "right-center" } s =
      JsLookup.val (o.size - s - 10, (o.size - s) / 2) ∧
    (o.watermarkPosition ∉ objectPrototypeKeys →
      QrCodeResult.getWatermarkPosition o s =
        JsLookup.val ((o.size - s) / 2, (o.size - s) / 2)) ∧
    (o.watermarkPosition ∈ objectPrototypeKeys →
      QrCodeResult.getWatermarkPosition o s =
        JsLookup.inherited o.watermarkPosition) := by
  have key : ∀ k : String, k ∈ BarcodeGenerator.getWatermarkPositions →
      ¬ o.watermarkPosition = k := by
    intro k hk he
    exact hun (he ▸ hk)
  refine ⟨by decide, by decide, by decide, by decide,
    by simp [QrCodeResult.getWatermarkPosition], by simp [QrCodeResult.getWatermarkPosition],
    by simp [QrCodeResult.getWatermarkPosition], by simp [QrCodeResult.getWatermarkPosition],
    by simp [QrCodeResult.getWatermarkPosition], by simp [QrCodeResult.getWatermarkPosition],
    by simp [QrCodeResult.getWatermarkPosition], by simp [QrCodeResult.getWatermarkPosition],
    by simp [QrCodeResult.getWatermarkPosition], ?_, ?_⟩
  · intro hpro
    unfold QrCodeResult.getWatermarkPosition
    rw [if_neg (key "top-left" (by decide)), if_neg (key "top-right" (by decide)),
      if_neg (key "bottom-left" (by decide)), if_neg (key "bottom-right" (by decide)),
      if_neg (key "center" (by decide)), if_neg (key "top-center" (by decide)),
      if_neg (key "bottom-center" (by decide)), if_neg (key "left-center" (by decide)),
      if_neg (key "right-center" (by decide)),
      if_neg (show ¬ objectPrototypeKeys.contains o.watermarkPosition = true from
        fun hc => hpro (List.elem_iff.mp hc))]
  · intro hpro
    unfold QrCodeResult.getWatermarkPosition
    rw [if_neg (key "top-left" (by decide)), if_neg (key "top-right" (by decide)),
      if_neg (key "bottom-left" (by decide)), if_neg (key "bottom-right" (by decide)),
      if_neg (key "center" (by decide)), if_neg (key "top-center" (by decide)),
      if_neg (key "bottom-center" (by decide)), if_neg (key "left-center" (by decide)),
      if_neg (key "right-center" (by decide)),
      if_pos (List.elem_iff.mpr hpro)]

/-- C9, witness: the plain unrecognized position `"diagonal"` resolves
to the center formula, and the inherited name `"hasOwnProperty"`
yields the inherited member. -/
theorem c9_watermark_positions_witness :
    BarcodeGenerator.getWatermarkPositions.length = 9 ∧
    QrCodeResult.getWatermarkPosition { watermarkPosition := "diagonal" } 5 =
      JsLookup.val ((((300 : ℚ) - 5) / 2, ((300 : ℚ) - 5) / 2)) ∧
    QrCodeResult.getWatermarkPosition { watermarkPosition := "hasOwnProperty" } 5 =
      JsLookup.inherited "hasOwnProperty" := by
  have h1 := c9_watermark_positions { watermarkPosition := "diagonal" } 5 (by decide)
  have h2 := c9_watermark_positions { watermarkPosition := "hasOwnProperty" } 5 (by decide)
  refine ⟨h1.1, ?_, ?_⟩
  · have := h1.2.2.2.2.2.2.2.2.2.2.2.2.2.1 (by decide)
    simpa using this
  · have := h2.2.2.2.2.2.2.2.2.2.2.2.2.2.2 (by decide)
    simpa using this

/-- C10: `getString()` resolves to exactly the value `generate()`
resolves to — the raw buffer, for every configuration and environment;
the two accessors are extensionally equal. -/
theorem c10_getString_eq_generate (env : QrEnv) (o : QrOptions) :
    QrCodeResult.getString env o = QrCodeResult.generate env o := rfl

/-- `parseInt(data[i])` for an in-bounds digit position. -/
def digitAt (s : String) (i : Nat) : Nat :=
  digitVal (s.toList.getD i (Char.ofNat 0))

/-- `data.substring(0, n)`: the first `n` characters. -/
def firstChars (s : String) (n : Nat) : String :=
  String.mk (s.toList.take n)

/-- Evaluation of `Validator.validate` on an all-digit string of length
13 under the `"ean13"` type: everything reduces to the check-digit
comparison. -/
theorem validate_ean13_eval (s : String) (h13 : s.length = 13)
    (hds : s.toList.all isDigitCh = true) :
    Validator.validate s "ean13" =
      if digitAt s 12 = Validator.calculateEANCheckDigit (firstChars s 12) then
        { valid := true, data := some s, type := some "ean13",
          length := some s.length, charset := some "Numeric" }
      else { valid := false, error := some "Invalid EAN-13 check digit" } := by
  have hne : ¬ s = "" := by
    intro e
    rw [e] at h13
    exact absurd h13 (by decide)
  have hpat : patternEAN13 s = true := by
    unfold patternEAN13
    rw [hds, h13]
    decide
  have hb : 12 < s.toList.length := by
    have hl : s.toList.length = s.length := rfl
    rw [hl, h13]
    omega
  by_cases hc : digitAt s 12 = Validator.calculateEANCheckDigit (firstChars s 12)
  · have hcu := hc
    unfold digitAt firstChars at hcu
    rw [List.getD_eq_getElem _ _ hb] at hcu
    simp only [String.toList] at hcu
    simp [Validator.validate, Validator.validateByType, Validator.validateEAN13,
      hne, hpat, h13, hcu, hc, show BarcodeTypes.isValid "ean13" = true from by decide, jsLt, jsGt,
      JsLookup.minLength, JsLookup.maxLength, JsLookup.charset,
      show BarcodeTypes.getConfig "ean13" = JsLookup.val ⟨12, 13, "Numeric"⟩ from by decide]
  · have hcu := hc
    unfold digitAt firstChars at hcu
    rw [List.getD_eq_getElem _ _ hb] at hcu
    simp only [String.toList] at hcu
    simp [Validator.validate, Validator.validateByType, Validator.validateEAN13,
      hne, hpat, h13, hcu, hc, show BarcodeTypes.isValid "ean13" = true from by decide, jsLt, jsGt,
      JsLookup.minLength, JsLookup.maxLength, JsLookup.charset,
      show BarcodeTypes.getConfig "ean13" = JsLookup.val ⟨12, 13, "Numeric"⟩ from by decide]

/-- Evaluation of `Validator.validate` on an all-digit string of length
8 under the `"ean8"` type. -/
theorem validate_ean8_eval (s : String) (h8 : s.length = 8)
    (hds : s.toList.all isDigitCh = true) :
    Validator.validate s "ean8" =
      if digitAt s 7 = Validator.calculateEANCheckDigit (firstChars s 7) then
        { valid := true, data := some s, type := some "ean8",
          length := some s.length, charset := some "Numeric" }
      else { valid := false, error := some "Invalid EAN-8 check digit" } := by
  have hne : ¬ s = "" := by
    intro e
    rw [e] at h8
    exact absurd h8 (by decide)
  have hpat : patternEAN8 s = true := by
    unfold patternEAN8
    rw [hds, h8]
    decide
  have hb : 7 < s.toList.length := by
    have hl : s.toList.length = s.length := rfl
    rw [hl, h8]
    omega
  by_cases hc : digitAt s 7 = Validator.calculateEANCheckDigit (firstChars s 7)
  · have hcu := hc
    unfold digitAt firstChars at hcu
    rw [List.getD_eq_getElem _ _ hb] at hcu
    simp only [String.toList] at hcu
    simp [Validator.validate, Validator.validateByType, Validator.validateEAN8,
      hne, hpat, h8, hcu, hc, show BarcodeTypes.isValid "ean8" = true from by decide, jsLt, jsGt,
      JsLookup.minLength, JsLookup.maxLength, JsLookup.charset,
      show BarcodeTypes.getConfig "ean8" = JsLookup.val ⟨7, 8, "Numeric"⟩ from by decide]
  · have hcu := hc
    unfold digitAt firstChars at hcu
    rw [List.getD_eq_getElem _ _ hb] at hcu
    simp only [String.toList] at hcu
    simp [Validator.validate, Validator.validateByType, Validator.validateEAN8,
      hne, hpat, h8, hcu, hc, show BarcodeTypes.isValid "ean8" = true from by decide, jsLt, jsGt,
      JsLookup.minLength, JsLookup.maxLength, JsLookup.charset,
      show BarcodeTypes.getConfig "ean8" = JsLookup.val ⟨7, 8, "Numeric"⟩ from by decide]

/-- C2, counterexample: on the claim's weighting (odd positions weight
1, even positions weight 3, 0-indexed) the recomputed digit for
`"123456789012"` would be 0, so `"1234567890128"` (13th digit 8) would
have to fail with a checksum error — yet the code accepts it: the
code's weighting is the reverse of the claim's. -/
theorem c2_ean_weighting_counterexample :
    specCheckDigit "123456789012" = 0 ∧
    (Validator.validate "1234567890128" "ean13").valid = true ∧
    Validator.calculateEANCheckDigit "123456789012" = 8 := by
  decide

/-- C2 (amended): for every 13-digit EAN-13 input, validation
recomputes the check digit over the first 12 digits by the modulo-10
weighted sum in which, 0-indexed from the left, EVEN positions have
weight 1 and ODD positions have weight 3, and fails with the checksum
error exactly when the 13th digit differs; symmetric rule for 8-digit
EAN-8 over the first 7 digits. -/
theorem c2_ean_checksum_rule (s t : String)
    (h13 : s.length = 13) (hds : s.toList.all isDigitCh = true)
    (h8 : t.length = 8) (hdt : t.toList.all isDigitCh = true) :
    ((Validator.validate s "ean13").valid = true ↔
      digitAt s 12 = Validator.calculateEANCheckDigit (firstChars s 12)) ∧
    ((Validator.validate s "ean13").valid = false →
      (Validator.validate s "ean13").error = some "Invalid EAN-13 check digit") ∧
    ((Validator.validate t "ean8").valid = true ↔
      digitAt t 7 = Validator.calculateEANCheckDigit (firstChars t 7)) ∧
    ((Validator.validate t "ean8").valid = false →
      (Validator.validate t "ean8").error = some "Invalid EAN-8 check digit") := by
  rw [validate_ean13_eval s h13 hds, validate_ean8_eval t h8 hdt]
  by_cases hc : digitAt s 12 = Validator.calculateEANCheckDigit (firstChars s 12) <;>
    by_cases hc8 : digitAt t 7 = Validator.calculateEANCheckDigit (firstChars t 7) <;>
    simp [hc, hc8]

/-- C2, witness: the valid EAN-13 `"1234567890128"` and the valid EAN-8
`"12345670"`. -/
theorem c2_ean_checksum_rule_witness :
    ((Validator.validate "1234567890128" "ean13").valid = true ↔
      digitAt "1234567890128" 12 =
        Validator.calculateEANCheckDigit (firstChars "1234567890128" 12)) ∧
    ((Validator.validate "1234567890128" "ean13").valid = false →
      (Validator.validate "1234567890128" "ean13").error =
        some "Invalid EAN-13 check digit") ∧
    ((Validator.validate "12345670" "ean8").valid = true ↔
      digitAt "12345670" 7 =
        Validator.calculateEANCheckDigit (firstChars "12345670" 7)) ∧
    ((Validator.validate "12345670" "ean8").valid = false →
      (Validator.validate "12345670" "ean8").error =
        some "Invalid EAN-8 check digit") :=
  c2_ean_checksum_rule "1234567890128" "12345670" (by decide) (by decide)
    (by decide) (by decide)

/-- C8: a configured logo whose path cannot be loaded is non-fatal —
generation resolves exactly as it would without the logo, and a
successful artifact has width and height equal to the configured size. -/
theorem c8_logo_failure_nonfatal (env : QrEnv) (o : QrOptions) (p : String)
    (hp : o.logoPath = some p) (hload : env.loadOk p = false) :
    QrCodeResult.generate env o =
      QrCodeResult.generate env { o with logoPath := none } ∧
    ∀ b, QrCodeResult.generate env o = Except.ok b →
      b.width = o.size ∧ b.height = o.size := by
  cases hq : env.qrFail o.data with
  | some m =>
    constructor
    · simp [QrCodeResult.generate, hq]
    · intro b hb
      simp only [QrCodeResult.generate, hq] at hb
      exact absurd hb (by simp)
  | none =>
    have hlogo : (if jsTruthy o.logoPath then QrCodeResult.addLogo env o else []) = [] := by
      by_cases hp0 : p = ""
      · rw [hp, hp0]
        simp [jsTruthy]
      · rw [hp]
        simp only [jsTruthy, hp0]
        simp [QrCodeResult.addLogo, hp, hload]
    constructor
    · simp only [QrCodeResult.generate, hq, hlogo]
      simp [QrCodeResult.addWatermark, QrCodeResult.addLabel,
        QrCodeResult.getWatermarkPosition, jsTruthy, hlogo]
    · intro b hb
      simp only [QrCodeResult.generate, hq, Except.ok.injEq] at hb
      rw [← hb]
      exact ⟨rfl, rfl⟩

/-- C8, witness: a logo at a nonexistent path in an environment where
every image load fails and QR generation succeeds. -/
theorem c8_logo_failure_nonfatal_witness :
    QrCodeResult.generate ⟨fun _ => none, fun _ => false⟩
        { data := "hello", logoPath := some "/missing/logo.png" } =
      QrCodeResult.generate ⟨fun _ => none, fun _ => false⟩
        { data := "hello", logoPath := none } ∧
    ∀ b, QrCodeResult.generate ⟨fun _ => none, fun _ => false⟩
        { data := "hello", logoPath := some "/missing/logo.png" } = Except.ok b →
      b.width = ({ data := "hello", logoPath := some "/missing/logo.png" } : QrOptions).size ∧
      b.height = ({ data := "hello", logoPath := some "/missing/logo.png" } : QrOptions).size :=
  c8_logo_failure_nonfatal ⟨fun _ => none, fun _ => false⟩
    { data := "hello", logoPath := some "/missing/logo.png" } "/missing/logo.png"
    rfl rfl

/-- The environment for the C4 experiment: QR generation always
succeeds, image loads always succeed. -/
def c4Env : QrEnv := ⟨fun _ => none, fun _ => true⟩

/-- C4, counterexample: `build()` hands the result the builder's live
options record (`new QrCodeResult(this.options)`, no clone), so calling
the fluent setter `data("B")` after `build()` changes what the already
built result's `generate()` produces. -/
theorem c4_snapshot_counterexample :
    QrCodeResult.generate c4Env
        (QrCodeBuilder.data "B" (QrCodeBuilder.build { data := "A" })) ≠
      QrCodeResult.generate c4Env (QrCodeBuilder.build { data := "A" }) := by
  intro h
  simp only [QrCodeBuilder.build, QrCodeBuilder.data, QrCodeResult.generate, c4Env] at h
  simp at h

/-- C4 (amended): the result produced by `build()` is NOT an immutable
snapshot — it aliases the builder's options record, so any
data-changing fluent-setter call after `build()` changes the output of
the already-built result's `generate()`. -/
theorem c4_build_aliases_options (env : QrEnv) (o : QrOptions) (s : String)
    (hs : ¬ s = o.data) (h1 : env.qrFail s = none) (h2 : env.qrFail o.data = none) :
    QrCodeResult.generate env (QrCodeBuilder.data s (QrCodeBuilder.build o)) ≠
      QrCodeResult.generate env (QrCodeBuilder.build o) := by
  intro h
  simp only [QrCodeBuilder.build, QrCodeBuilder.data, QrCodeResult.generate] at h
  rw [h1, h2] at h
  simp [hs] at h

/-- C4, witness for the amended theorem at `data "A"` mutated to `"B"`. -/
theorem c4_build_aliases_options_witness :
    QrCodeResult.generate c4Env
        (QrCodeBuilder.data "B" (QrCodeBuilder.build { data := "A" })) ≠
      QrCodeResult.generate c4Env (QrCodeBuilder.build { data := "A" }) :=
  c4_build_aliases_options c4Env { data := "A" } "B" (by decide) rfl rfl

instance : Inhabited BatchItem := ⟨⟨"", none, none, {}⟩⟩

/-- `batch` is a positional map: the result at index `i` is the
processing of the item at index `i`. -/
theorem batch_getD (env : JsEnv) (items : List BatchItem) (i : Nat)
    (h : i < items.length) :
    (BarcodeService.batch env items).getD i default =
      BarcodeService.processItem env i (items.getD i default) := by
  unfold BarcodeService.batch
  rw [List.getD_eq_getElem _ _ (by simpa using h), List.getElem_mapIdx,
    List.getD_eq_getElem _ _ h]

/-- C5: `batch` preserves length; the result at position `i` carries
index `i` and the data of input item `i`, is the success record of
item `i`'s generation when that generation succeeds and the failure
record carrying the thrown message when it throws, and depends only on
item `i` (any list agreeing at position `i` yields the same result
there). -/
theorem c5_batch_independent (env : JsEnv) (items : List BatchItem) (i : Nat)
    (h : i < items.length) :
    (BarcodeService.batch env items).length = items.length ∧
    ((BarcodeService.batch env items).getD i default).index = i ∧
    ((BarcodeService.batch env items).getD i default).data =
      (items.getD i default).data ∧
    (∀ a, BarcodeService.generate env (items.getD i default).data
        ((items.getD i default).type.getD "code128")
        ((items.getD i default).format.getD "png")
        (items.getD i default).options = Except.ok a →
      (BarcodeService.batch env items).getD i default =
        { index := i, success := true, result := some a, error := none,
          data := (items.getD i default).data,
          type := (items.getD i default).type.getD "code128",
          format := (items.getD i default).format.getD "png" }) ∧
    (∀ e, BarcodeService.generate env (items.getD i default).data
        ((items.getD i default).type.getD "code128")
        ((items.getD i default).format.getD "png")
        (items.getD i default).options = Except.error e →
      (BarcodeService.batch env items).getD i default =
        { index := i, success := false, result := none, error := some e,
          data := (items.getD i default).data,
          type := jsOrStr (items.getD i default).type "code128",
          format := jsOrStr (items.getD i default).format "png" }) ∧
    (∀ items₂, ∀ h₂ : i < items₂.length,
      items₂.getD i default = items.getD i default →
      (BarcodeService.batch env items₂).getD i default =
        (BarcodeService.batch env items).getD i default) := by
  refine ⟨by simp [BarcodeService.batch], ?_, ?_, ?_, ?_, ?_⟩
  · rw [batch_getD env items i h]
    unfold BarcodeService.processItem
    cases BarcodeService.generate env (items.getD i default).data
        ((items.getD i default).type.getD "code128")
        ((items.getD i default).format.getD "png")
        (items.getD i default).options <;> rfl
  · rw [batch_getD env items i h]
    unfold BarcodeService.processItem
    cases BarcodeService.generate env (items.getD i default).data
        ((items.getD i default).type.getD "code128")
        ((items.getD i default).format.getD "png")
        (items.getD i default).options <;> rfl
  · intro a hg
    rw [batch_getD env items i h]
    unfold BarcodeService.processItem
    rw [hg]
  · intro e hg
    rw [batch_getD env items i h]
    unfold BarcodeService.processItem
    rw [hg]
  · intro items₂ h₂ he
    rw [batch_getD env items₂ i h₂, batch_getD env items i h, he]

/-- The spec's two-item batch example: a valid `code128` item followed
by an empty-data item. -/
def c5Items : List BatchItem :=
  [{ data := "1234567890", type := some "code128", format := some "png" },
   { data := "", type := some "code128", format := some "png" }]

/-- C5, witness at the spec's two-item example, at position 1. -/
theorem c5_batch_independent_witness :
    (BarcodeService.batch ⟨0, "r"⟩ c5Items).length = c5Items.length ∧
    ((BarcodeService.batch ⟨0, "r"⟩ c5Items).getD 1 default).index = 1 ∧
    ((BarcodeService.batch ⟨0, "r"⟩ c5Items).getD 1 default).data =
      (c5Items.getD 1 default).data ∧
    (∀ a, BarcodeService.generate ⟨0, "r"⟩ (c5Items.getD 1 default).data
        ((c5Items.getD 1 default).type.getD "code128")
        ((c5Items.getD 1 default).format.getD "png")
        (c5Items.getD 1 default).options = Except.ok a →
      (BarcodeService.batch ⟨0, "r"⟩ c5Items).getD 1 default =
        { index := 1, success := true, result := some a, error := none,
          data := (c5Items.getD 1 default).data,
          type := (c5Items.getD 1 default).type.getD "code128",
          format := (c5Items.getD 1 default).format.getD "png" }) ∧
    (∀ e, BarcodeService.generate ⟨0, "r"⟩ (c5Items.getD 1 default).data
        ((c5Items.getD 1 default).type.getD "code128")
        ((c5Items.getD 1 default).format.getD "png")
        (c5Items.getD 1 default).options = Except.error e →
      (BarcodeService.batch ⟨0, "r"⟩ c5Items).getD 1 default =
        { index := 1, success := false, result := none, error := some e,
          data := (c5Items.getD 1 default).data,
          type := jsOrStr (c5Items.getD 1 default).type "code128",
          format := jsOrStr (c5Items.getD 1 default).format "png" }) ∧
    (∀ items₂, ∀ h₂ : 1 < items₂.length,
      items₂.getD 1 default = c5Items.getD 1 default →
      (BarcodeService.batch ⟨0, "r"⟩ items₂).getD 1 default =
        (BarcodeService.batch ⟨0, "r"⟩ c5Items).getD 1 default) :=
  c5_batch_independent ⟨0, "r"⟩ c5Items 1 (by decide)

/-- C6: for every `generate` call and every renderer table, empty data
fails first with the empty-data message, an unregistered type fails
with the message enumerating all registered types, an unregistered
format fails with the message enumerating all registered formats, data
rejected by the Validator fails with the wrapped validation error, and
the result depends on the renderer table only once every check passes
(each failure equation holds for EVERY table `renderers`, so no
renderer is ever invoked on a failing call). -/
theorem c6_generate_guards
    (renderers : String → Option (JsEnv → String → String → PartialOpts → Artifact))
    (env : JsEnv) (data type format : String) (options : PartialOpts) :
    (data = "" →
      BarcodeService.generateWith renderers env data type format options =
        Except.error "Data must be a non-empty string") ∧
    (¬ data = "" → BarcodeTypes.isValid type = false →
      BarcodeService.generateWith renderers env data type format options =
        Except.error ("Invalid barcode type: " ++ type ++ ". Supported types: " ++
          String.intercalate ", " BarcodeTypes.getAll)) ∧
    (¬ data = "" → BarcodeTypes.isValid type = true →
      RenderFormats.isValid format = false →
      BarcodeService.generateWith renderers env data type format options =
        Except.error ("Invalid format: " ++ format ++ ". Supported formats: " ++
          String.intercalate ", " RenderFormats.getAll)) ∧
    (¬ data = "" → BarcodeTypes.isValid type = true →
      RenderFormats.isValid format = true →
      (Validator.validate data type).valid = false →
      BarcodeService.generateWith renderers env data type format options =
        Except.error ("Invalid data for " ++ type ++ ": " ++
          jsStr (Validator.validate data type).error)) ∧
    (¬ data = "" → BarcodeTypes.isValid type = true →
      RenderFormats.isValid format = true →
      (Validator.validate data type).valid = true →
      BarcodeService.generateWith renderers env data type format options =
        match renderers format with
        | some r => Except.ok (r env data type options)
        | none => Except.error ("No renderer available for format: " ++ format)) := by
  refine ⟨?_, ?_, ?_, ?_, ?_⟩
  · intro h1
    simp [BarcodeService.generateWith, h1]
  · intro h1 h2
    simp [BarcodeService.generateWith, h1, h2]
  · intro h1 h2 h3
    simp [BarcodeService.generateWith, h1, h2, h3]
  · intro h1 h2 h3 h4
    simp [BarcodeService.generateWith, h1, h2, h3, h4]
  · intro h1 h2 h3 h4
    simp [BarcodeService.generateWith, h1, h2, h3, h4]
    cases renderers format <;> rfl

/-- C6, witness: an unregistered type fails with the enumerating
message regardless of the renderer table (here: the empty table). -/
theorem c6_generate_guards_witness :
    BarcodeService.generateWith (fun f => none) ⟨0, "r"⟩ "abc" "nope" "png" {} =
      Except.error ("Invalid barcode type: " ++ "nope" ++ ". Supported types: " ++
        String.intercalate ", " BarcodeTypes.getAll) :=
  (c6_generate_guards (fun f => none) ⟨0, "r"⟩ "abc" "nope" "png" {}).2.1
    (by decide) (by decide)

/-- C3, counterexample: the markup (HTML) backend invoked twice with
identical data, type and options produces different strings when the
two invocations see different `Date.now()` values, because the
generated container id embeds the timestamp and random suffix. -/
theorem c3_determinism_counterexample :
    HTMLRenderer.render ⟨0, "aaaaaaaaa"⟩ "1234567890" "code128" {} ≠
      HTMLRenderer.render ⟨1, "aaaaaaaaa"⟩ "1234567890" "code128" {} := by
  decide

/-- C3 (amended): the raster (PNG), vector (SVG) and document (PDF)
backends are deterministic for EVERY options record — two invocations
with identical inputs agree for any two ambient environments; the
markup (HTML) backend is deterministic exactly under a caller-supplied
non-empty `options.id`, since otherwise its container id embeds the
time-based plus random suffix. -/
theorem c3_renderer_determinism (env env₂ : JsEnv) (data type : String)
    (o : PartialOpts) :
    PNGRenderer.render env data type o = PNGRenderer.render env₂ data type o ∧
    SVGRenderer.render env data type o = SVGRenderer.render env₂ data type o ∧
    PDFRenderer.render env data type o = PDFRenderer.render env₂ data type o ∧
    (∀ i, o.id = some i → ¬ i = "" →
      HTMLRenderer.render env data type o = HTMLRenderer.render env₂ data type o) := by
  refine ⟨rfl, rfl, rfl, ?_⟩
  intro i hid hne
  simp [HTMLRenderer.render, HTMLRenderer.createHTMLStructure, mergeOpts, hid,
    jsOrStr, hne]

/-- C3, witness: PNG/SVG/PDF agree across two environments for an
id-less options record, and the HTML backend agrees once `id "myid"`
is supplied. -/
theorem c3_renderer_determinism_witness :
    PNGRenderer.render ⟨0, "a"⟩ "x" "code128" {} =
      PNGRenderer.render ⟨1, "b"⟩ "x" "code128" {} ∧
    SVGRenderer.render ⟨0, "a"⟩ "x" "code128" {} =
      SVGRenderer.render ⟨1, "b"⟩ "x" "code128" {} ∧
    PDFRenderer.render ⟨0, "a"⟩ "x" "code128" {} =
      PDFRenderer.render ⟨1, "b"⟩ "x" "code128" {} ∧
    HTMLRenderer.render ⟨0, "a"⟩ "x" "code128" { id := some "myid" } =
      HTMLRenderer.render ⟨1, "b"⟩ "x" "code128" { id := some "myid" } :=
  ⟨(c3_renderer_determinism ⟨0, "a"⟩ ⟨1, "b"⟩ "x" "code128" {}).1,
   (c3_renderer_determinism ⟨0, "a"⟩ ⟨1, "b"⟩ "x" "code128" {}).2.1,
   (c3_renderer_determinism ⟨0, "a"⟩ ⟨1, "b"⟩ "x" "code128" {}).2.2.1,
   (c3_renderer_determinism ⟨0, "a"⟩ ⟨1, "b"⟩ "x" "code128"
      { id := some "myid" }).2.2.2 "myid" rfl (by decide)⟩
